import Mathlib

/-!
Shallow embedding of `src/index.js` of fxcjahid/editorjs-idea-box:
the `Idea` Editor.js block tool (constructor, `render`, `save`,
static defaults, the `_make` element helper and the CSS class map).

JavaScript loose values are modelled by `JSVal` (with JS truthiness for
the `||` operator used in the constructor).  DOM elements are modelled by
an `Element` tree carrying an allocation id, class list, the
`contentEditable` string property, `innerHTML` as a raw string and the
`data-placeholder` dataset entry; child lists are a mutually inductive
`ElementForest` so that all tree recursion is structural and computable.
The widget's mutable `this.data` record lives in a `Store` heap indexed
by `Nat` references, so that in-place mutation by `save` (via
`Object.assign`) and object identity of the returned record are
expressible.  Methods are translated in state-passing style; a
`TypeError` raised by a property access on a missing object
(`undefined`) is modelled with `Except Fault`.
-/

namespace IdeaBox

/-- JavaScript primitive values, as far as the widget's code can observe
them: `undefined`, `null`, booleans, (integer) numbers and strings. -/
inductive JSVal where
  | undef : JSVal
  | null : JSVal
  | bool : Bool → JSVal
  | num : Int → JSVal
  | str : String → JSVal
deriving Repr, DecidableEq

/-- JS truthiness: `undefined`, `null`, `false`, `0` and `""` are falsy. -/
def JSVal.truthy : JSVal → Bool
  | .undef => false
  | .null => false
  | .bool b => b
  | .num n => n != 0
  | .str s => s != ""

/-- The JS `a || b` operator: `a` if truthy, else `b`. -/
def jsOr (a b : JSVal) : JSVal := if a.truthy then a else b

/-- JS string coercion, as applied by DOM string-property assignment. -/
def JSVal.toStr : JSVal → String
  | .undef => "undefined"
  | .null => "null"
  | .bool b => if b then "true" else "false"
  | .num n => toString n
  | .str s => s

/-- Is the value a string? -/
def JSVal.isStr : JSVal → Bool
  | .str _ => true
  | _ => false

/-- Is the value a string or absent (`undefined`)?  This is the input
domain a `Partial` record's string fields range over. -/
def JSVal.isStrOrAbsent : JSVal → Bool
  | .str _ => true
  | .undef => true
  | _ => false

mutual
/-- A DOM element as the widget builds and reads it: allocation id,
tag name, ordered class list (a set, as `classList` keeps it), the
`contentEditable` property (a string in the DOM), `innerHTML` kept as
the raw assigned string, the `data-placeholder` dataset entry, and
child elements in document order. -/
inductive Element where
  | mk : Nat → String → List String → String → String → Option String →
      ElementForest → Element

/-- A list of sibling DOM elements in document order. -/
inductive ElementForest where
  | nil : ElementForest
  | cons : Element → ElementForest → ElementForest
end

/-- The allocation id of an element. -/
def Element.id : Element → Nat
  | ⟨i, _, _, _, _, _, _⟩ => i

/-- The tag name of an element. -/
def Element.tagName : Element → String
  | ⟨_, t, _, _, _, _, _⟩ => t

/-- The class list of an element. -/
def Element.classes : Element → List String
  | ⟨_, _, cs, _, _, _, _⟩ => cs

/-- The `contentEditable` property of an element. -/
def Element.contentEditable : Element → String
  | ⟨_, _, _, ce, _, _, _⟩ => ce

/-- The `innerHTML` property of an element. -/
def Element.innerHTML : Element → String
  | ⟨_, _, _, _, ih, _, _⟩ => ih

/-- The `data-placeholder` dataset entry of an element. -/
def Element.datasetPlaceholder : Element → Option String
  | ⟨_, _, _, _, _, dp, _⟩ => dp

/-- The children of an element, in document order. -/
def Element.children : Element → ElementForest
  | ⟨_, _, _, _, _, _, ch⟩ => ch

/-- Convert a forest of siblings to a plain list. -/
def ElementForest.toList : ElementForest → List Element
  | .nil => []
  | .cons e rest => e :: rest.toList

/-- Append one element at the end of a forest. -/
def ElementForest.push : ElementForest → Element → ElementForest
  | .nil, c => .cons c .nil
  | .cons e rest, c => .cons e (rest.push c)

/-- `parent.appendChild(child)`: append `child` after the existing
children. -/
def Element.appendChild : Element → Element → Element
  | ⟨i, t, cs, ce, ih, dp, ch⟩, c => ⟨i, t, cs, ce, ih, dp, ch.push c⟩

/-- `el.dataset.placeholder = p`: set the `data-placeholder` entry. -/
def Element.withPlaceholder : Element → String → Element
  | ⟨i, t, cs, ce, ih, _, ch⟩, p => ⟨i, t, cs, ce, ih, some p, ch⟩

/-- `classList.add(...names)`: append each class not already present. -/
def classListAdd (cs : List String) (names : List String) : List String :=
  names.foldl (fun acc c => if c ∈ acc then acc else acc ++ [c]) cs

/-- The record behind `this.data`: `{title, message}`. -/
structure IdeaData where
  title : JSVal
  message : JSVal
deriving Repr, DecidableEq

/-- Heap for mutable `IdeaData` records plus a counter handing out DOM
element ids, so that `Object.assign(this.data, …)` is in-place mutation
and two `render()` calls yield distinct element objects. -/
structure Store where
  nextRef : Nat
  recs : Nat → IdeaData
  nextElem : Nat

/-- Allocate a fresh record, returning its reference. -/
def Store.alloc (s : Store) (d : IdeaData) : Nat × Store :=
  (s.nextRef,
   { s with nextRef := s.nextRef + 1,
            recs := fun n => if n = s.nextRef then d else s.recs n })

/-- Overwrite the record at reference `r` (the effect of
`Object.assign(this.data, {title, message})`). -/
def Store.set (s : Store) (r : Nat) (d : IdeaData) : Store :=
  { s with recs := fun n => if n = r then d else s.recs n }

/-- A store with nothing allocated. -/
def emptyStore : Store :=
  { nextRef := 0, recs := fun _ => ⟨.undef, .undef⟩, nextElem := 0 }

/-- The `api.styles` capability consumed by the widget: the host's
block and input style class tokens. -/
structure Styles where
  block : String
  input : String
deriving Repr, DecidableEq

/-- The Editor.js API object, restricted to what the widget reads. -/
structure Api where
  styles : Styles
deriving Repr, DecidableEq

/-- The widget instance state set up by the constructor:
`this.api`, `this.readOnly`, `this.titlePlaceholder`,
`this.messagePlaceholder` and the reference behind `this.data`. -/
structure Idea where
  api : Api
  readOnly : Bool
  titlePlaceholder : JSVal
  messagePlaceholder : JSVal
  dataRef : Nat
deriving Repr, DecidableEq

/-- `static get DEFAULT_TITLE_PLACEHOLDER() { return 'Title'; }` -/
def Idea.DEFAULT_TITLE_PLACEHOLDER : String := "Title"

/-- `static get DEFAULT_MESSAGE_PLACEHOLDER() { return 'Message'; }` -/
def Idea.DEFAULT_MESSAGE_PLACEHOLDER : String := "Message"

/-- `static get isReadOnlySupported() { return true; }` -/
def Idea.isReadOnlySupported : Bool := true

/-- `static get enableLineBreaks() { return true; }` -/
def Idea.enableLineBreaks : Bool := true

/-- The `get CSS()` class map. -/
structure CSSRec where
  baseClass : String
  wrapper : String
  title : String
  input : String
  message : String
deriving Repr, DecidableEq

/-- `get CSS()`: the widget's style classes, two taken from the host
API and three fixed. -/
def Idea.CSS (i : Idea) : CSSRec :=
  { baseClass := i.api.styles.block
    wrapper := "cdx-idea"
    title := "cdx-idea__title"
    input := i.api.styles.input
    message := "cdx-idea__message" }

/-- One field of the constructor's `data` argument: a JS value,
`undefined` when the property is absent. -/
structure DataIn where
  title : JSVal := .undef
  message : JSVal := .undef
deriving Repr, DecidableEq

/-- The constructor's `config` argument's two optional properties. -/
structure ConfigIn where
  titlePlaceholder : JSVal := .undef
  messagePlaceholder : JSVal := .undef
deriving Repr, DecidableEq

/-- The destructured constructor argument `{data, config, api, readOnly}`.
`data` and `config` are `none` when the host passes `undefined` for
them (property access on `undefined` throws). -/
structure CtorArgs where
  data : Option DataIn
  config : Option ConfigIn
  api : Api
  readOnly : Bool

/-- Fault raised by an unguarded property access on a missing object:
a JS `TypeError` (null-dereference class). -/
inductive Fault where
  | typeError : Fault
deriving Repr, DecidableEq

/-- Read property `f` of an object that may be `undefined`: throws
`TypeError` when the object is missing, else yields the property value
(`undefined` when the property itself is absent). -/
def getProp (o : Option α) (f : α → JSVal) : Except Fault JSVal :=
  match o with
  | none => .error .typeError
  | some x => .ok (f x)

/-- The `Idea` constructor: stores `api` and `readOnly`, resolves the
two placeholders with `config.titlePlaceholder || DEFAULT_…`, and
allocates `this.data` as `{title: data.title || '', message:
data.message || ''}`. -/
def Idea.construct (args : CtorArgs) (s : Store) : Except Fault (Idea × Store) := do
  let tp ← getProp args.config (fun c => c.titlePlaceholder)
  let mp ← getProp args.config (fun c => c.messagePlaceholder)
  let dt ← getProp args.data (fun d => d.title)
  let dm ← getProp args.data (fun d => d.message)
  let rd : IdeaData := { title := jsOr dt (.str ""), message := jsOr dm (.str "") }
  let (r, s1) := s.alloc rd
  return ({ api := args.api
            readOnly := args.readOnly
            titlePlaceholder := jsOr tp (.str Idea.DEFAULT_TITLE_PLACEHOLDER)
            messagePlaceholder := jsOr mp (.str Idea.DEFAULT_MESSAGE_PLACEHOLDER)
            dataRef := r }, s1)

/-- The attribute object `render` passes to `_make`. -/
structure MakeAttrs where
  contentEditable : Option Bool := none
  innerHTML : Option JSVal := none

/-- `_make(tagName, classNames, attributes)`: creates an element, adds
the class names, then assigns each supplied attribute as a DOM property
(booleans and other values string-coerced by the DOM setters). -/
def Idea.make (s : Store) (tagName : String) (classNames : List String)
    (attrs : MakeAttrs) : Element × Store :=
  let cs := classListAdd [] classNames
  let ce := match attrs.contentEditable with
    | none => "inherit"
    | some b => (JSVal.bool b).toStr
  let ih := match attrs.innerHTML with
    | none => ""
    | some v => v.toStr
  (⟨s.nextElem, tagName, cs, ce, ih, none, .nil⟩,
   { s with nextElem := s.nextElem + 1 })

/-- `render()`: builds the container with the base and wrapper classes,
the title and message editable divs (contentEditable `!this.readOnly`,
innerHTML from the stored record), sets their `data-placeholder`, and
appends both children.  No instance field and no stored record is
written, so the widget comes back unchanged. -/
def Idea.render (i : Idea) (s : Store) : Element × Idea × Store :=
  let css := i.CSS
  let d := s.recs i.dataRef
  let (container, s1) := Idea.make s "div" [css.baseClass, css.wrapper] {}
  let (title, s2) := Idea.make s1 "div" [css.input, css.title]
      { contentEditable := some (!i.readOnly), innerHTML := some d.title }
  let (message, s3) := Idea.make s2 "div" [css.input, css.message]
      { contentEditable := some (!i.readOnly), innerHTML := some d.message }
  let title := title.withPlaceholder i.titlePlaceholder.toStr
  let message := message.withPlaceholder i.messagePlaceholder.toStr
  let container := (container.appendChild title).appendChild message
  (container, i, s3)

/-- `querySelector('.cls')` over a forest of sibling subtrees: first
element in document (pre-)order whose class list contains `cls`. -/
def qsForest (cls : String) : ElementForest → Option Element
  | .nil => none
  | .cons ⟨i, tag, cs, ce, ih, dp, children⟩ rest =>
    if cls ∈ cs then some ⟨i, tag, cs, ce, ih, dp, children⟩
    else
      match qsForest cls children with
      | some r => some r
      | none => qsForest cls rest

/-- `root.querySelector('.cls')`: searches the descendants of `root`
(the root itself is never matched). -/
def Element.qs (root : Element) (cls : String) : Option Element :=
  qsForest cls root.children

/-- `save(ideaElement)`: looks up the title and message regions by the
widget's marker classes, reads their `innerHTML` (a `TypeError` when a
lookup found nothing; the title lookup's content is read first),
overwrites `this.data` in place via `Object.assign` and returns the
reference to that same record. -/
def Idea.save (i : Idea) (s : Store) (el : Element) :
    Except Fault (Idea × Store × Nat) :=
  let css := i.CSS
  let titleEl := el.qs css.title
  let messageEl := el.qs css.message
  match titleEl with
  | none => .error .typeError
  | some tE =>
    match messageEl with
    | none => .error .typeError
    | some mE =>
      let s1 := s.set i.dataRef
        { title := JSVal.str tE.innerHTML, message := JSVal.str mE.innerHTML }
      .ok (i, s1, i.dataRef)

/-- Erase allocation ids in a forest of sibling element subtrees. -/
def stripForest : ElementForest → ElementForest
  | .nil => .nil
  | .cons ⟨_, tag, cs, ce, ih, dp, children⟩ rest =>
    .cons ⟨0, tag, cs, ce, ih, dp, stripForest children⟩ (stripForest rest)

/-- Erase allocation ids throughout an element tree, leaving the
structural content (tag, classes, properties, children). -/
def Element.stripIds : Element → Element
  | ⟨_, tag, cs, ce, ih, dp, children⟩ => ⟨0, tag, cs, ce, ih, dp, stripForest children⟩

/-- Run the round-trip: construct the widget, render it, save the
rendered element unmodified, and return the record the save produced
(`none` when a step faulted). -/
def runRoundTrip (args : CtorArgs) (s : Store) : Option IdeaData :=
  match Idea.construct args s with
  | .error _ => none
  | .ok (i, s1) =>
    let (el, i2, s2) := i.render s1
    match i2.save s2 el with
    | .error _ => none
    | .ok (_, s3, r) => some (s3.recs r)

/-! ## Helper lemmas -/

/-- `v || ''` is a string whenever `v` is a string or absent. -/
theorem str_toStr_jsOr (v : JSVal) (h : v.isStrOrAbsent = true) :
    JSVal.str (jsOr v (JSVal.str "")).toStr = jsOr v (JSVal.str "") := by
  cases v with
  | str t => by_cases h2 : t = "" <;> simp [jsOr, JSVal.truthy, JSVal.toStr, h2]
  | undef => simp [jsOr, JSVal.truthy, JSVal.toStr]
  | null => simp [JSVal.isStrOrAbsent] at h
  | bool b => simp [JSVal.isStrOrAbsent] at h
  | num n => simp [JSVal.isStrOrAbsent] at h

/-- `v || ''` satisfies the string test whenever `v` is a string or
absent. -/
theorem isStr_jsOr (v : JSVal) (h : v.isStrOrAbsent = true) :
    (jsOr v (JSVal.str "")).isStr = true := by
  cases v with
  | str t => by_cases h2 : t = "" <;> simp [jsOr, JSVal.truthy, JSVal.isStr, h2]
  | undef => simp [jsOr, JSVal.truthy, JSVal.isStr]
  | null => simp [JSVal.isStrOrAbsent] at h
  | bool b => simp [JSVal.isStrOrAbsent] at h
  | num n => simp [JSVal.isStrOrAbsent] at h

/-! ## Concrete instances used by the witnesses -/

/-- A well-behaved host API instance. -/
def apiW : Api := ⟨⟨"cdx-block", "cdx-input"⟩⟩

/-- The widget state produced by constructing with empty data and
config against `apiW` in read-write mode. -/
def ideaW : Idea := ⟨apiW, false, JSVal.str "Title", JSVal.str "Message", 0⟩

/-- The widget state produced by the same construction in read-only
mode. -/
def ideaROW : Idea := ⟨apiW, true, JSVal.str "Title", JSVal.str "Message", 0⟩

/-- The store after that construction: one record `{title: '', message: ''}`
at reference 0. -/
def storeW : Store :=
  ⟨1, fun n => if n = 0 then ⟨JSVal.str "", JSVal.str ""⟩ else ⟨JSVal.undef, JSVal.undef⟩, 0⟩

/-- A title region holding edited content `"T"`. -/
def titleW : Element :=
  ⟨1, "div", ["cdx-input", "cdx-idea__title"], "true", "T", some "Title", .nil⟩

/-- A message region holding edited content `"M"`. -/
def messageW : Element :=
  ⟨2, "div", ["cdx-input", "cdx-idea__message"], "true", "M", some "Message", .nil⟩

/-- A container holding both marked regions. -/
def elW : Element :=
  ⟨0, "div", ["cdx-block", "cdx-idea"], "inherit", "", none,
    .cons titleW (.cons messageW .nil)⟩

/-- A container with no children at all: neither marked region. -/
def elBareW : Element := ⟨0, "div", ["cdx-block"], "inherit", "", none, .nil⟩

/-- A data argument carrying falsy non-string values in both fields. -/
def dFalsyW : DataIn := ⟨JSVal.num 0, JSVal.null⟩

/-- A config argument carrying explicit empty strings for both
placeholders. -/
def cEmptyW : ConfigIn := ⟨JSVal.str "", JSVal.str ""⟩

/-! ## Claims -/

/-- C1, counterexample: the round-trip claim quantified over every
widget fails when the host's `api.styles.input` token is the widget's
own message marker class `cdx-idea__message`: the title region then
also matches the message selector, is found first in document order,
and save returns `{title: "A", message: "A"}`, not the constructed
record `{title: "A", message: "B"}`. -/
theorem claim_C1_counterexample :
    runRoundTrip ⟨some ⟨JSVal.str "A", JSVal.str "B"⟩, some {},
        ⟨⟨"cdx-block", "cdx-idea__message"⟩⟩, false⟩ emptyStore
      = some ⟨JSVal.str "A", JSVal.str "A"⟩
    ∧ (⟨JSVal.str "A", JSVal.str "A"⟩ : IdeaData) ≠ ⟨JSVal.str "A", JSVal.str "B"⟩ :=
  ⟨rfl, by decide⟩

/-- C1 (amended): for every widget whose host style token
`api.styles.input` is not the widget's message marker class
`cdx-idea__message`, and whose data fields are strings or absent,
calling `render()` and then `save()` on the produced element with no
edits in between returns exactly the record the widget was constructed
with (`{title: data.title || '', message: data.message || ''}`). -/
theorem claim_C1_roundTrip (d : DataIn) (c : ConfigIn) (api : Api) (ro : Bool)
    (s : Store) (hin : api.styles.input ≠ "cdx-idea__message")
    (ht : d.title.isStrOrAbsent = true) (hm : d.message.isStrOrAbsent = true) :
    runRoundTrip ⟨some d, some c, api, ro⟩ s =
      some ⟨jsOr d.title (JSVal.str ""), jsOr d.message (JSVal.str "")⟩ := by
  simp only [runRoundTrip, Idea.construct, getProp, Store.alloc, Idea.render,
    Idea.make, Idea.CSS, classListAdd, Idea.save, Element.qs, qsForest,
    Element.children, Element.appendChild, Element.withPlaceholder,
    ElementForest.push, Element.classes, Element.innerHTML,
    Store.set, bind, Except.bind, pure, Except.pure, List.foldl]
  by_cases hti : "cdx-idea__title" = api.styles.input <;>
    simp [List.mem_cons, hin, Ne.symm hin, hti] <;>
  first
  | exact str_toStr_jsOr _ ht
  | exact str_toStr_jsOr _ hm
  | exact ⟨str_toStr_jsOr _ ht, str_toStr_jsOr _ hm⟩

/-- C1, witness for the amended round-trip at the concrete input of the
claim: data `{title: "A", message: "B"}`, empty config, a host whose
tokens do not collide. -/
theorem claim_C1_roundTrip_witness :
    runRoundTrip ⟨some ⟨JSVal.str "A", JSVal.str "B"⟩, some {}, apiW, false⟩ emptyStore
      = some ⟨JSVal.str "A", JSVal.str "B"⟩ :=
  claim_C1_roundTrip ⟨JSVal.str "A", JSVal.str "B"⟩ {} apiW false emptyStore
    (by decide) (by decide) (by decide)

/-- C2: constructing with an absent data field stores the empty string
for it, and constructing with an absent config placeholder stores the
constant `"Title"` / `"Message"` for it. -/
theorem claim_C2_defaults (d : DataIn) (c : ConfigIn) (api : Api) (ro : Bool)
    (s : Store) (i : Idea) (s1 : Store)
    (h : Idea.construct ⟨some d, some c, api, ro⟩ s = .ok (i, s1)) :
    (d.title = JSVal.undef → (s1.recs i.dataRef).title = JSVal.str "")
    ∧ (d.message = JSVal.undef → (s1.recs i.dataRef).message = JSVal.str "")
    ∧ (c.titlePlaceholder = JSVal.undef → i.titlePlaceholder = JSVal.str "Title")
    ∧ (c.messagePlaceholder = JSVal.undef → i.messagePlaceholder = JSVal.str "Message") := by
  simp only [Idea.construct, getProp, Store.alloc, bind, Except.bind, pure,
    Except.pure, Except.ok.injEq, Prod.mk.injEq] at h
  obtain ⟨h1, h2⟩ := h
  subst h1; subst h2
  refine ⟨fun hh => ?_, fun hh => ?_, fun hh => ?_, fun hh => ?_⟩ <;>
    simp [hh, jsOr, JSVal.truthy, Idea.DEFAULT_TITLE_PLACEHOLDER,
      Idea.DEFAULT_MESSAGE_PLACEHOLDER]

/-- C2, witness: empty data and config against `apiW` yield the record
`{title: '', message: ''}` and the placeholders `"Title"`/`"Message"`. -/
theorem claim_C2_witness :
    (storeW.recs ideaW.dataRef).title = JSVal.str ""
    ∧ (storeW.recs ideaW.dataRef).message = JSVal.str ""
    ∧ ideaW.titlePlaceholder = JSVal.str "Title"
    ∧ ideaW.messagePlaceholder = JSVal.str "Message" := by
  have h := claim_C2_defaults {} {} apiW false emptyStore ideaW storeW rfl
  exact ⟨h.1 rfl, h.2.1 rfl, h.2.2.1 rfl, h.2.2.2 rfl⟩

/-- C3: for every construction whose `data` and `config` arguments are
objects (each possibly omitting any of its fields), the constructor
never throws: it always returns a widget state. -/
theorem claim_C3_total (args : CtorArgs) (s : Store)
    (hd : args.data.isSome = true) (hc : args.config.isSome = true) :
    (Idea.construct args s).isOk = true := by
  obtain ⟨dt, cf, api, ro⟩ := args
  obtain ⟨d, rfl⟩ := Option.isSome_iff_exists.mp hd
  obtain ⟨c, rfl⟩ := Option.isSome_iff_exists.mp hc
  rfl

/-- C3, witness: construction with empty data and config succeeds. -/
theorem claim_C3_witness :
    (Idea.construct ⟨some {}, some {}, apiW, false⟩ emptyStore).isOk = true :=
  claim_C3_total ⟨some {}, some {}, apiW, false⟩ emptyStore rfl rfl

/-- C4: whenever the passed container has descendants matching the
title and message markers, `save` overwrites the stored record in
place with the two regions' current markup and returns the reference
to that same stored record (no new allocation, not a copy). -/
theorem claim_C4_save (i : Idea) (s : Store) (el : Element) (tEl mEl : Element)
    (ht : el.qs i.CSS.title = some tEl) (hm : el.qs i.CSS.message = some mEl) :
    Idea.save i s el =
      .ok (i, s.set i.dataRef ⟨JSVal.str tEl.innerHTML, JSVal.str mEl.innerHTML⟩,
        i.dataRef) := by
  simp [Idea.save, ht, hm]

/-- C4, witness: saving a container whose regions hold `"T"`/`"M"`
stores and returns `{title: "T", message: "M"}` at the widget's record
reference. -/
theorem claim_C4_witness :
    Idea.save ideaW storeW elW =
      .ok (ideaW, storeW.set ideaW.dataRef ⟨JSVal.str "T", JSVal.str "M"⟩, ideaW.dataRef) :=
  claim_C4_save ideaW storeW elW titleW messageW rfl rfl

/-- C5: `save` on a container lacking either marked descendant fails
with the unguarded lookup fault (`TypeError`), and `save` succeeds
exactly when both marked descendants are present. -/
theorem claim_C5_fault (i : Idea) (s : Store) (el : Element) :
    ((el.qs i.CSS.title = none ∨ el.qs i.CSS.message = none) →
      Idea.save i s el = .error .typeError)
    ∧ ((Idea.save i s el).isOk = true ↔
      (el.qs i.CSS.title).isSome = true ∧ (el.qs i.CSS.message).isSome = true) := by
  cases hT : el.qs i.CSS.title <;> cases hM : el.qs i.CSS.message <;>
    simp [Idea.save, hT, hM, Except.isOk, Except.toBool]

/-- C5, witness: saving a childless container faults with `TypeError`. -/
theorem claim_C5_witness :
    Idea.save ideaW storeW elBareW = .error .typeError :=
  (claim_C5_fault ideaW storeW elBareW).1 (Or.inl rfl)

/-- C6: a widget constructed with `readOnly = true` renders both
editable regions with `contentEditable = "false"` (non-editable); with
`readOnly = false` both are `"true"` (editable). -/
theorem claim_C6_readOnly (args : CtorArgs) (s : Store) (i : Idea) (s1 : Store)
    (hd : args.data.isSome = true) (hc : args.config.isSome = true)
    (h : Idea.construct args s = .ok (i, s1)) :
    ((i.render s1).1.children.toList.map fun c => c.contentEditable) =
      if args.readOnly then ["false", "false"] else ["true", "true"] := by
  obtain ⟨dt, cf, api, ro⟩ := args
  obtain ⟨d, rfl⟩ := Option.isSome_iff_exists.mp hd
  obtain ⟨c, rfl⟩ := Option.isSome_iff_exists.mp hc
  simp only [Idea.construct, getProp, Store.alloc, bind, Except.bind, pure,
    Except.pure, Except.ok.injEq, Prod.mk.injEq] at h
  obtain ⟨h1, h2⟩ := h
  subst h1; subst h2
  cases ro <;>
    simp [Idea.render, Idea.make, Idea.CSS, Element.appendChild,
      Element.withPlaceholder, ElementForest.push, Element.children,
      ElementForest.toList, Element.contentEditable, JSVal.toStr]

/-- C6, witness: the read-only construction renders both regions with
`contentEditable = "false"`. -/
theorem claim_C6_witness :
    ((ideaROW.render storeW).1.children.toList.map fun c => c.contentEditable)
      = ["false", "false"] :=
  claim_C6_readOnly ⟨some {}, some {}, apiW, true⟩ emptyStore ideaROW storeW rfl rfl rfl

/-- C7: `render` mutates neither the widget state (record reference,
placeholders, read-only flag, api) nor any stored record, and two
successive renders produce structurally identical elements (equal after
erasing allocation ids, hence identical class lists, placeholder
attributes and initial content) that are nonetheless distinct objects
(the second container's allocation id is the first's plus three). -/
theorem claim_C7_render_pure (i : Idea) (s : Store) :
    (i.render s).2.1 = i
    ∧ ((i.render s).2.2).recs = s.recs
    ∧ ((i.render s).2.2).nextRef = s.nextRef
    ∧ (((i.render s).2.1).render ((i.render s).2.2)).1.stripIds
        = ((i.render s).1).stripIds
    ∧ ((((i.render s).2.1).render ((i.render s).2.2)).1.children.toList.map
        fun c => c.datasetPlaceholder)
        = ((i.render s).1.children.toList.map fun c => c.datasetPlaceholder)
    ∧ (((i.render s).2.1).render ((i.render s).2.2)).1.id = (i.render s).1.id + 3 := by
  refine ⟨rfl, rfl, rfl, ?_, ?_, rfl⟩ <;>
    simp [Idea.render, Idea.make, Idea.CSS, Element.appendChild,
      Element.withPlaceholder, ElementForest.push, Element.children,
      ElementForest.toList, Element.stripIds, stripForest,
      Element.datasetPlaceholder, Element.id]

/-- C8: the stored record's fields are strings after construction from
string-or-absent data, after every successful save (which always
stores strings), and render leaves every stored record untouched. -/
theorem claim_C8_invariant :
    (∀ (d : DataIn) (c : ConfigIn) (api : Api) (ro : Bool) (s : Store)
      (i : Idea) (s1 : Store),
      d.title.isStrOrAbsent = true → d.message.isStrOrAbsent = true →
      Idea.construct ⟨some d, some c, api, ro⟩ s = .ok (i, s1) →
      (s1.recs i.dataRef).title.isStr = true
        ∧ (s1.recs i.dataRef).message.isStr = true)
    ∧ (∀ (i : Idea) (s : Store) (el : Element) (i2 : Idea) (s2 : Store) (r : Nat),
      Idea.save i s el = .ok (i2, s2, r) →
      (s2.recs r).title.isStr = true ∧ (s2.recs r).message.isStr = true)
    ∧ (∀ (i : Idea) (s : Store), ((i.render s).2.2).recs = s.recs) := by
  refine ⟨?_, ?_, fun i s => rfl⟩
  · intro d c api ro s i s1 ht hm h
    simp only [Idea.construct, getProp, Store.alloc, bind, Except.bind, pure,
      Except.pure, Except.ok.injEq, Prod.mk.injEq] at h
    obtain ⟨h1, h2⟩ := h
    subst h1; subst h2
    simp [isStr_jsOr _ ht, isStr_jsOr _ hm]
  · intro i s el i2 s2 r h
    cases hT : el.qs i.CSS.title with
    | none => simp [Idea.save, hT] at h
    | some tEl =>
      cases hM : el.qs i.CSS.message with
      | none => simp [Idea.save, hT, hM] at h
      | some mEl =>
        simp only [Idea.save, hT, hM, Store.set, Except.ok.injEq,
          Prod.mk.injEq] at h
        obtain ⟨h1, h2, h3⟩ := h
        subst h1; subst h2; subst h3
        simp [JSVal.isStr]

/-- C8, witness: the invariant holds after the empty construction and
after saving the container whose regions hold `"T"`/`"M"`. -/
theorem claim_C8_witness :
    ((storeW.recs ideaW.dataRef).title.isStr = true)
    ∧ (((storeW.set ideaW.dataRef ⟨JSVal.str "T", JSVal.str "M"⟩).recs
        ideaW.dataRef).title.isStr = true) := by
  have h1 := claim_C8_invariant.1 {} {} apiW false emptyStore ideaW storeW rfl rfl rfl
  have h2 := claim_C8_invariant.2.1 ideaW storeW elW ideaW
    (storeW.set ideaW.dataRef ⟨JSVal.str "T", JSVal.str "M"⟩) ideaW.dataRef rfl
  exact ⟨h1.1, h2.1⟩

/-- C9: any falsy data field value (undefined, null, false, 0, empty
string) is stored as the empty string, and an explicitly supplied
empty-string placeholder is replaced by the defaults `"Title"` /
`"Message"` rather than kept. -/
theorem claim_C9_falsy (d : DataIn) (c : ConfigIn) (api : Api) (ro : Bool)
    (s : Store) (i : Idea) (s1 : Store)
    (h : Idea.construct ⟨some d, some c, api, ro⟩ s = .ok (i, s1)) :
    (d.title.truthy = false → (s1.recs i.dataRef).title = JSVal.str "")
    ∧ (d.message.truthy = false → (s1.recs i.dataRef).message = JSVal.str "")
    ∧ (c.titlePlaceholder = JSVal.str "" → i.titlePlaceholder = JSVal.str "Title")
    ∧ (c.messagePlaceholder = JSVal.str "" → i.messagePlaceholder = JSVal.str "Message") := by
  simp only [Idea.construct, getProp, Store.alloc, bind, Except.bind, pure,
    Except.pure, Except.ok.injEq, Prod.mk.injEq] at h
  obtain ⟨h1, h2⟩ := h
  subst h1; subst h2
  refine ⟨fun hh => ?_, fun hh => ?_, fun hh => ?_, fun hh => ?_⟩
  · cases htt : d.title with
    | undef => simp [htt, jsOr, JSVal.truthy]
    | null => simp [htt, jsOr, JSVal.truthy]
    | bool b =>
      rw [htt] at hh; simp [JSVal.truthy] at hh
      simp [htt, hh, jsOr, JSVal.truthy]
    | num n =>
      rw [htt] at hh; simp [JSVal.truthy] at hh
      simp [htt, hh, jsOr, JSVal.truthy]
    | str t =>
      rw [htt] at hh; simp [JSVal.truthy] at hh
      simp [htt, hh, jsOr, JSVal.truthy]
  · cases htt : d.message with
    | undef => simp [htt, jsOr, JSVal.truthy]
    | null => simp [htt, jsOr, JSVal.truthy]
    | bool b =>
      rw [htt] at hh; simp [JSVal.truthy] at hh
      simp [htt, hh, jsOr, JSVal.truthy]
    | num n =>
      rw [htt] at hh; simp [JSVal.truthy] at hh
      simp [htt, hh, jsOr, JSVal.truthy]
    | str t =>
      rw [htt] at hh; simp [JSVal.truthy] at hh
      simp [htt, hh, jsOr, JSVal.truthy]
  · simp [hh, jsOr, JSVal.truthy, Idea.DEFAULT_TITLE_PLACEHOLDER]
  · simp [hh, jsOr, JSVal.truthy, Idea.DEFAULT_MESSAGE_PLACEHOLDER]

/-- C9, witness: `title = 0` and `message = null` are stored as empty
strings, and empty-string placeholders fall back to `"Title"`. -/
theorem claim_C9_witness :
    (storeW.recs ideaW.dataRef).title = JSVal.str ""
    ∧ ideaW.titlePlaceholder = JSVal.str "Title" := by
  have h := claim_C9_falsy dFalsyW cEmptyW apiW false emptyStore ideaW storeW rfl
  exact ⟨h.1 rfl, h.2.2.1 rfl⟩

/-- C10: a successful `save` changes only the record at the widget's
own reference: the widget state (placeholders, read-only flag, api,
record reference) is returned unchanged, the returned reference is the
widget's own, every other record is untouched, and no allocation
happens. -/
theorem claim_C10_frame (i : Idea) (s : Store) (el : Element) (i2 : Idea)
    (s2 : Store) (r : Nat) (h : Idea.save i s el = .ok (i2, s2, r)) :
    i2 = i ∧ r = i.dataRef
    ∧ (∀ q, q ≠ i.dataRef → s2.recs q = s.recs q)
    ∧ s2.nextRef = s.nextRef ∧ s2.nextElem = s.nextElem := by
  cases hT : el.qs i.CSS.title with
  | none => simp [Idea.save, hT] at h
  | some tEl =>
    cases hM : el.qs i.CSS.message with
    | none => simp [Idea.save, hT, hM] at h
    | some mEl =>
      simp only [Idea.save, hT, hM, Store.set, Except.ok.injEq,
        Prod.mk.injEq] at h
      obtain ⟨h1, h2, h3⟩ := h
      subst h1; subst h2; subst h3
      refine ⟨rfl, rfl, fun q hq => ?_, rfl, rfl⟩
      simp [hq]

/-- C10, witness: after saving `elW`, the record at reference 5 is
untouched. -/
theorem claim_C10_witness :
    (storeW.set ideaW.dataRef ⟨JSVal.str "T", JSVal.str "M"⟩).recs 5 = storeW.recs 5 :=
  (claim_C10_frame ideaW storeW elW ideaW
    (storeW.set ideaW.dataRef ⟨JSVal.str "T", JSVal.str "M"⟩) ideaW.dataRef rfl).2.2.1 5
    (by decide)

end IdeaBox
